import Mathlib

/-!
Shallow embedding of the xled client protocol stack (security primitives,
discovery beacon decoding, the discovery peer table, the authenticated
session's bounded 401 retry, and the realtime UDP framing), together with
theorems settling the specification claims against it.

Byte strings are modelled as `List Nat` with each element a byte value.
Fallible Python code (functions that may raise) is modelled with `Except`
or with an explicit success flag where the code can partially complete
before raising.
-/

namespace Xled

/-- ASCII byte values of the characters of a string literal. -/
def strBytes (s : String) : List Nat :=
  s.data.map (fun c => c.toNat)

/-! ## Security primitives (src/xled/security.py) -/

/-- XOR of the message bytes against the key cycled from its beginning,
the loop body of `xor_strings`: element `i` of the message is xored with
element `i % len(key)` of the key.  The index accumulator `i` tracks the
position inside `itertools.cycle(key)`. -/
def xorWithCycle (key : List Nat) : Nat → List Nat → List Nat
  | _, [] => []
  | i, m :: ms => (m ^^^ key.getD (i % key.length) 0) :: xorWithCycle key (i + 1) ms

/-- Embeds `xor_strings(message, key)`.  Python zips the message with
`itertools.cycle(key)`; when the key is empty the cycle is empty, the zip
produces nothing and the function returns the empty byte string, with no
error raised.  The function body contains no validation of its inputs. -/
def xor_strings (message key : List Nat) : List Nat :=
  if key.isEmpty then [] else xorWithCycle key 0 message

/-- Embeds `derive_key(shared_key, mac_address)`: the MAC address is packed
to its raw bytes (`netaddr.EUI(mac_address).packed`, 6 bytes for a MAC-48
address, modelled here as the byte list `mac_packed`) and used as the
cycled key for `xor_strings` applied to the shared key. -/
def derive_key (shared_key mac_packed : List Nat) : List Nat :=
  xor_strings shared_key mac_packed

/-- Swap the elements at positions `i` and `j` of a byte list (the RC4
state permutation update). -/
def swapL (l : List Nat) (i j : Nat) : List Nat :=
  let a := l.getD i 0
  let b := l.getD j 0
  (l.set i b).set j a

/-- RC4 key scheduling: starting from the identity permutation on 256
bytes, mix in the key.  `key[i % len(key)]` matches the reference KSA used
by the `arc4` cipher that `rc4` wraps. -/
def rc4Ksa (key : List Nat) : List Nat :=
  ((List.range 256).foldl
    (fun (st : List Nat × Nat) i =>
      let S := st.1
      let j := (st.2 + S.getD i 0 + key.getD (i % key.length) 0) % 256
      (swapL S i j, j))
    (List.range 256, 0)).1

/-- RC4 keystream generation xored into the message bytes. -/
def rc4Prga : List Nat → Nat → Nat → List Nat → List Nat
  | _, _, _, [] => []
  | S, i, j, m :: ms =>
    let i1 := (i + 1) % 256
    let j1 := (j + S.getD i1 0) % 256
    let S1 := swapL S i1 j1
    let k := S1.getD ((S1.getD i1 0 + S1.getD j1 0) % 256) 0
    (m ^^^ k) :: rc4Prga S1 i1 j1 ms

/-- Embeds `rc4(message, key)`: encrypt the message with the RC4 cipher
under the given key. -/
def rc4 (message key : List Nat) : List Nat :=
  rc4Prga (rc4Ksa key) 0 0 message

/-- Truncation to 32 bits, the word size of SHA-1 arithmetic. -/
def w32 (x : Nat) : Nat := x % 4294967296

/-- Left rotation of a 32-bit word by `n` bits. -/
def rotl32 (x n : Nat) : Nat :=
  w32 ((x <<< n) ||| (x >>> (32 - n)))

/-- Big-endian byte rendering of `n` into exactly `k` bytes. -/
def beBytes : Nat → Nat → List Nat
  | 0, _ => []
  | k + 1, n => beBytes k (n / 256) ++ [n % 256]

/-- Split a byte list into consecutive pieces of at most `n` bytes (the
last piece may be shorter); empty input or a zero piece size gives no
pieces. -/
def chunksOf (n : Nat) (l : List Nat) : List (List Nat) :=
  if n = 0 then []
  else if h : l = [] then []
  else l.take n :: chunksOf n (l.drop n)
termination_by l.length
decreasing_by
  simp only [List.length_drop]
  have hp : 0 < l.length := List.length_pos.mpr h
  omega

/-- SHA-1 message padding: append `0x80`, zero bytes up to 56 mod 64, and
the 64-bit big-endian bit length. -/
def sha1Pad (m : List Nat) : List Nat :=
  m ++ [128] ++ List.replicate ((119 - (m.length % 64)) % 64) 0
    ++ beBytes 8 (8 * m.length)

/-- Parse a 64-byte SHA-1 block into its 16 big-endian 32-bit words. -/
def sha1Words (block : List Nat) : List Nat :=
  (chunksOf 4 block).map (fun c => c.foldl (fun acc b => acc * 256 + b) 0)

/-- Extend 16 message-schedule words to 80 by the SHA-1 recurrence. -/
def sha1Extend (ws : List Nat) : List Nat :=
  if h : 80 ≤ ws.length then ws
  else
    sha1Extend (ws ++ [rotl32
      (ws.getD (ws.length - 3) 0 ^^^ ws.getD (ws.length - 8) 0 ^^^
        ws.getD (ws.length - 14) 0 ^^^ ws.getD (ws.length - 16) 0) 1])
termination_by 80 - ws.length
decreasing_by
  simp only [List.length_append, List.length_cons, List.length_nil]
  omega

/-- One SHA-1 compression round: round index `i`, schedule words `ws`,
working state `(a, b, c, d, e)`. -/
def sha1Round (ws : List Nat) (st : Nat × Nat × Nat × Nat × Nat) (i : Nat) :
    Nat × Nat × Nat × Nat × Nat :=
  let a := st.1
  let b := st.2.1
  let c := st.2.2.1
  let d := st.2.2.2.1
  let e := st.2.2.2.2
  let f :=
    if i < 20 then (b &&& c) ||| ((b ^^^ 4294967295) &&& d)
    else if i < 40 then b ^^^ c ^^^ d
    else if i < 60 then (b &&& c) ||| (b &&& d) ||| (c &&& d)
    else b ^^^ c ^^^ d
  let k :=
    if i < 20 then 1518500249
    else if i < 40 then 1859775393
    else if i < 60 then 2400959708
    else 3395469782
  let temp := w32 (rotl32 a 5 + f + e + k + ws.getD i 0)
  (temp, a, rotl32 b 30, c, d)

/-- SHA-1 compression of one 64-byte block into the running hash state. -/
def sha1Block (h : Nat × Nat × Nat × Nat × Nat) (block : List Nat) :
    Nat × Nat × Nat × Nat × Nat :=
  let ws := sha1Extend (sha1Words block)
  let st := (List.range 80).foldl (sha1Round ws) h
  (w32 (h.1 + st.1), w32 (h.2.1 + st.2.1), w32 (h.2.2.1 + st.2.2.1),
    w32 (h.2.2.2.1 + st.2.2.2.1), w32 (h.2.2.2.2 + st.2.2.2.2))

/-- SHA-1 digest of a byte string, as 20 bytes. -/
def sha1Bytes (m : List Nat) : List Nat :=
  let h := (chunksOf 64 (sha1Pad m)).foldl sha1Block
    (1732584193, 4023233417, 2562383102, 271733878, 3285377520)
  beBytes 4 h.1 ++ beBytes 4 h.2.1 ++ beBytes 4 h.2.2.1 ++
    beBytes 4 h.2.2.2.1 ++ beBytes 4 h.2.2.2.2

/-- ASCII code of the lowercase hexadecimal digit for `n < 16`. -/
def hexChar (n : Nat) : Nat :=
  if n < 10 then 48 + n else 87 + n

/-- Lowercase hexadecimal rendering of a byte string, as ASCII bytes (the
Python `hexdigest` output). -/
def hexOfBytes (bs : List Nat) : List Nat :=
  (bs.map (fun b => [hexChar (b / 16), hexChar (b % 16)])).flatten

/-- SHA-1 hex digest of a byte string, as ASCII bytes. -/
def sha1Hex (m : List Nat) : List Nat :=
  hexOfBytes (sha1Bytes m)

/-- The default shared key used to encrypt the challenge in the login
phase, `SHARED_KEY_CHALLANGE` in the source. -/
def SHARED_KEY_CHALLANGE : List Nat := strBytes "evenmoresecret!!"

/-- Embeds `make_challenge_response(challenge_message, mac_address, key)`:
the hex digest of the SHA-1 of the RC4 encryption of the challenge under
the key derived from the shared key and the MAC address. -/
def make_challenge_response (challenge_message mac_packed : List Nat)
    (key : List Nat := SHARED_KEY_CHALLANGE) : List Nat :=
  let secret_key := derive_key key mac_packed
  let rc4_encoded := rc4 challenge_message secret_key
  sha1Hex rc4_encoded

/-- Modelled from the spec wording for the claim comparison: byte-wise XOR
of the shared key with the MAC address cyclically repeated to the length
of the shared key. -/
def cyclicXorSpec (shared_key mac_packed : List Nat) : List Nat :=
  (List.range shared_key.length).map
    (fun i => shared_key.getD i 0 ^^^ mac_packed.getD (i % mac_packed.length) 0)

/-! ## Discovery beacon decoding (src/xled/discover.py, decode_discovery_response) -/

/-- ASCII decimal digits of an IPv4 octet (a byte value, so at most three
digits), the rendering used for each octet of a dotted-quad address. -/
def natDecimal (n : Nat) : List Nat :=
  if n < 10 then [48 + n]
  else if n < 100 then [48 + n / 10, 48 + n % 10]
  else [48 + n / 100, 48 + n / 10 % 10, 48 + n % 10]

/-- Dotted-quad rendering of four IPv4 address bytes as ASCII, the
`exploded` form produced by `ipaddress.ip_address` on a packed 4-byte
address, encoded to bytes. -/
def ipv4Exploded (b : List Nat) : List Nat :=
  natDecimal (b.getD 0 0) ++ [46] ++ natDecimal (b.getD 1 0) ++ [46] ++
    natDecimal (b.getD 2 0) ++ [46] ++ natDecimal (b.getD 3 0)

/-- Embeds `decode_discovery_response(data)` for byte-sequence input: a
payload shorter than 7 bytes, a status slice `data[4:6]` different from
the ASCII letters `OK`, or a final byte other than zero each raise a
`ValueError`, modelled as `Except.error` with the message prefix; a valid
payload yields the dotted-quad of the first four bytes reversed
(`data[3::-1]`) and the device id `data[6:-1]`. -/
def decode_discovery_response (data : List Nat) :
    Except String (List Nat × List Nat) :=
  if data.length < 7 then
    Except.error "Data must be longer than 7 bytes."
  else if ((data.drop 4).take 2 == strBytes "OK") = false then
    Except.error "Expected OK in status of data message."
  else if (data.getLast? == some 0) = false then
    Except.error "Expected zero character on the end of message."
  else
    let ip_address_data := (data.take 4).reverse
    let ip_address_exploded := ipv4Exploded ip_address_data
    let device_id := (data.drop 6).dropLast
    Except.ok (ip_address_exploded, device_id)

/-! ## Discovery peer table (src/xled/discover.py, InterfaceAgent) -/

/-- Seconds after which a device with no fresh beacon is considered
offline, `PEER_EXPIRY` in the source. -/
def PEER_EXPIRY : Nat := 5

/-- One tracked device, as held in the agent's `peers` dictionary keyed by
hardware address. -/
structure Peer where
  hw_address : List Nat
  device_id : List Nat
  ip_address : List Nat
  expires_at : Nat
deriving Repr, DecidableEq

/-- The discovery events the agent sends over its pipe to the caller. -/
inductive DiscoveryEvent where
  | joined (hw_address device_id ip_address : List Nat)
  | alive (hw_address device_id ip_address : List Nat)
  | renamed (hw_address old_device_id device_id : List Nat)
  | addressChanged (hw_address old_ip_address ip_address : List Nat)
  | left (hw_address : List Nat)
deriving Repr, DecidableEq

/-- The peer dictionary, modelled as a list of peers; the agent keys it by
hardware address, so well-formed tables hold at most one entry per
address. -/
abbrev PeerTable := List Peer

/-- Embeds `process_new_peer`: record the peer with a fresh expiry and emit
one JOINED message. -/
def process_new_peer (now : Nat) (peers : PeerTable)
    (hw_address device_id ip_address : List Nat) : PeerTable × List DiscoveryEvent :=
  (peers ++ [⟨hw_address, device_id, ip_address, now + PEER_EXPIRY⟩],
    [DiscoveryEvent.joined hw_address device_id ip_address])

/-- Embeds `process_seen_peer`: refresh the stored peer's expiry, emit
RENAMED when the decoded device id differs from the stored one, emit
ADDRESS_CHANGED when the decoded IP differs, update the stored fields, and
always finish with one ALIVE message. -/
def process_seen_peer (now : Nat) (peers : PeerTable)
    (hw_address device_id ip_address : List Nat) : PeerTable × List DiscoveryEvent :=
  match peers.find? (fun p => p.hw_address == hw_address) with
  | none => (peers, [])
  | some p =>
    let renamedEvents :=
      if device_id ≠ p.device_id then
        [DiscoveryEvent.renamed hw_address p.device_id device_id]
      else []
    let addressEvents :=
      if ip_address ≠ p.ip_address then
        [DiscoveryEvent.addressChanged hw_address p.ip_address ip_address]
      else []
    let updated : Peer :=
      ⟨hw_address, device_id, ip_address, now + PEER_EXPIRY⟩
    (peers.map (fun q => if q.hw_address == hw_address then updated else q),
      renamedEvents ++ addressEvents ++
        [DiscoveryEvent.alive hw_address device_id ip_address])

/-- Embeds the dispatch at the end of `handle_beacon`: a hardware address
already in the peer dictionary goes to `process_seen_peer`, otherwise to
`process_new_peer`. -/
def process_beacon (now : Nat) (peers : PeerTable)
    (hw_address device_id ip_address : List Nat) : PeerTable × List DiscoveryEvent :=
  if peers.any (fun p => p.hw_address == hw_address) then
    process_seen_peer now peers hw_address device_id ip_address
  else
    process_new_peer now peers hw_address device_id ip_address

/-- Embeds `reap_peers`: every tracked peer whose expiry time is before
`now` is removed from the table and one LEFT message is emitted for it. -/
def reap_peers (now : Nat) (peers : PeerTable) : PeerTable × List DiscoveryEvent :=
  (peers.filter (fun p => !(p.expires_at < now)),
    (peers.filter (fun p => p.expires_at < now)).map
      (fun p => DiscoveryEvent.left p.hw_address))

/-! ## Authenticated session request wrapper (src/xled/auth.py,
BaseUrlChallengeResponseAuthSession) -/

/-- The token-bearing part of the session visible to the request wrapper:
the client's `authentication_token` (none when unauthorized or after the
wrapper sets it to a falsy value) and the count of handshakes performed,
used to observe re-authentication.  The embedding covers the session whose
client carries no expiry (`expires_at is None`), for which `token_expired`
is always false. -/
structure SessionState where
  token : Option Nat
  handshakes : Nat
deriving Repr, DecidableEq

/-- Embeds a successful `fetch_token` run as seen by the request wrapper:
the handshake installs a fresh token (drawn from `supply` at the current
handshake count) and the handshake count grows by one. -/
def fetch_token_ok (supply : Nat → Nat) (s : SessionState) : SessionState :=
  { token := some (supply s.handshakes), handshakes := s.handshakes + 1 }

/-- Embeds `add_authorization(headers)` on the no-expiry client: when the
session is not authorized a token is fetched; with a valid token the
header is added and the loop breaks on its first iteration. -/
def add_authorization (supply : Nat → Nat) (s : SessionState) : SessionState :=
  if s.token.isSome then s else fetch_token_ok supply s

/-- Result of the session's `request` method: the response returned to the
caller, the status codes received for each attempt in order, and the final
session state. -/
structure RequestResult where
  response : Nat
  attempts : List Nat
  state : SessionState
deriving Repr, DecidableEq

/-- Embeds `BaseUrlChallengeResponseAuthSession.request` without
`withhold_token`, transcribing `for attempt in range(2)` iteration by
iteration: each attempt adds authorization (handshaking when no token is
held) and sends; a 401 response invalidates the token
(`self.access_token = False`) and the loop continues, any other status
breaks; after the second iteration the loop is exhausted and the last
response is returned.  `statuses n` is the device's status code for the
n-th send of this request. -/
def request (supply statuses : Nat → Nat) (s0 : SessionState) : RequestResult :=
  let s1 := add_authorization supply s0
  let r0 := statuses 0
  if r0 = 401 then
    let s1i : SessionState := { s1 with token := none }
    let s2 := add_authorization supply s1i
    let r1 := statuses 1
    if r1 = 401 then
      { response := r1, attempts := [r0, r1],
        state := { s2 with token := none } }
    else
      { response := r1, attempts := [r0, r1], state := s2 }
  else
    { response := r0, attempts := [r0], state := s1 }

/-! ## Authentication handshake of fetch_token (src/xled/auth.py,
ClientApplication) -/

/-- Errors raised on the handshake paths exercised by `fetch_token`. -/
inductive AuthFailure where
  | authenticationError
  | validationError
deriving Repr, DecidableEq

/-- The fields of `ClientApplication` that the handshake reads and
writes. -/
structure ClientState where
  challenge : List Nat
  challengeResponseField : Option (List Nat)
  pendingToken : Option (List Nat)
  authentication_token : Option (List Nat)
deriving Repr, DecidableEq

/-- A device answer to the login or verify call, reduced to the fields the
handshake inspects: the application status code and the optional
`challenge-response` and `authentication_token` values. -/
structure AppResponse where
  code : Nat
  challengeResponse : Option (List Nat)
  token : Option (List Nat)
deriving Repr, DecidableEq

/-- Embeds `parse_response_challenge`: an application status code other
than 1000 raises `AuthenticationError`; otherwise
`populate_token_attributes` stores the returned token and
challenge-response. -/
def parse_response_challenge (st : ClientState) (r : AppResponse) :
    Except AuthFailure ClientState :=
  if r.code ≠ 1000 then Except.error AuthFailure.authenticationError
  else Except.ok
    { st with
      pendingToken := if r.token.isSome then r.token else st.pendingToken,
      challengeResponseField :=
        if r.challengeResponse.isSome then r.challengeResponse
        else st.challengeResponseField }

/-- Embeds `challenge_response_valid(hw_address)`: without a hardware
address validation is skipped and `None` returned; with one, the expected
response is recomputed and a mismatch raises `ValidationError` (not
`AuthenticationError`). -/
def challenge_response_valid (st : ClientState) (hw_address : Option (List Nat)) :
    Except AuthFailure (Option Bool) :=
  match hw_address with
  | none => Except.ok none
  | some mac =>
    if st.challengeResponseField =
        some (make_challenge_response st.challenge mac) then
      Except.ok (some true)
    else Except.error AuthFailure.validationError

/-- Embeds `parse_response_verify`: on an application error the function
constructs an `AuthenticationError` and RETURNS it as a value instead of
raising it, leaving the client state unchanged; the boolean records
whether that error object was the return value.  On success the verified
token is promoted to `authentication_token`. -/
def parse_response_verify (st : ClientState) (r : AppResponse) :
    ClientState × Bool :=
  if r.code ≠ 1000 then (st, true)
  else
    ({ st with
        challengeResponseField := none,
        authentication_token := st.pendingToken,
        pendingToken := none },
      false)

/-- Embeds `fetch_token` over given login and verify responses: send the
challenge and parse the login answer, validate the challenge-response,
parse the verify answer (whose returned value `fetch_token` discards), and
return the client's `authentication_token`. -/
def fetch_token (st : ClientState) (hw_address : Option (List Nat))
    (loginResponse verifyResponse : AppResponse) :
    Except AuthFailure (ClientState × Option (List Nat)) := do
  let st1 ← parse_response_challenge st loginResponse
  let _ ← challenge_response_valid st1 hw_address
  let st2 := (parse_response_verify st1 verifyResponse).1
  Except.ok (st2, st2.authentication_token)

/-! ## Realtime UDP framing (src/xled/control.py, set_rt_frame_socket) -/

/-- Embeds `struct.pack(">B", n)`: one byte for `0 ≤ n ≤ 255`, a
`struct.error` otherwise. -/
def structPackB (n : Nat) : Option (List Nat) :=
  if n ≤ 255 then some [n] else none

/-- Chunk size of the version 3 realtime protocol, `packet_size` in the
source. -/
def V3_PACKET_SIZE : Nat := 900

/-- Embeds the version 3 send loop of `set_rt_frame_socket`: while bytes
remain, build a datagram `0x03 + token + two zero bytes + one-byte chunk
index + chunk` and send it, then read the next chunk of at most 900 bytes
and increment the index.  Returns the datagrams sent in order and whether
the loop completed without raising; packing an index above 255 raises a
`struct.error` before that datagram is sent. -/
def sendLoopV3 (token : List Nat) (i : Nat) (l : List Nat) :
    List (List Nat) × Bool :=
  if hl : l = [] then ([], true)
  else if i ≤ 255 then
    let rest := sendLoopV3 token (i + 1) (l.drop V3_PACKET_SIZE)
    ((3 :: (token ++ [0, 0] ++ [i] ++ l.take V3_PACKET_SIZE)) :: rest.1, rest.2)
  else ([], false)
termination_by l.length
decreasing_by
  simp only [List.length_drop]
  have hp : 0 < l.length := List.length_pos.mpr hl
  simp only [V3_PACKET_SIZE]
  omega

/-- Embeds `set_rt_frame_socket(frame, version, leds_number)` with the
session's bearer token already base64-decoded to `token`.  Returns the
datagrams passed to `udpclient.send` in order, and whether the call
completed without raising: version 1 packs the LED count as one byte (an
LED count above 255 raises before anything is sent) and sends a single
datagram; version 2 sends a single datagram with one zero byte; any other
version runs the chunked version 3 loop. -/
def set_rt_frame_socket (token frame : List Nat) (version : Nat)
    (leds_number : Nat) : List (List Nat) × Bool :=
  if version = 1 then
    match structPackB leds_number with
    | some lb => ([1 :: (token ++ lb ++ frame)], true)
    | none => ([], false)
  else if version = 2 then
    ([2 :: (token ++ [0] ++ frame)], true)
  else
    sendLoopV3 token 0 frame

/-- The expected version 3 datagram sequence for a list of chunks starting
at chunk index `i`. -/
def v3Datagrams (token : List Nat) : Nat → List (List Nat) → List (List Nat)
  | _, [] => []
  | i, c :: cs => (3 :: (token ++ [0, 0] ++ [i] ++ c)) :: v3Datagrams token (i + 1) cs

/-- Whether `decode_discovery_response` raises on the given payload. -/
def decodeFails (data : List Nat) : Bool :=
  match decode_discovery_response data with
  | Except.error _ => true
  | Except.ok _ => false

/-! ## Helper lemmas -/

lemma xorWithCycle_involutive (key : List Nat) :
    ∀ (m : List Nat) (i : Nat),
      xorWithCycle key i (xorWithCycle key i m) = m := by
  intro m
  induction m with
  | nil => intro i; rfl
  | cons x xs ih =>
    intro i
    simp [xorWithCycle, ih, Nat.xor_assoc]

lemma xorWithCycle_length (key : List Nat) :
    ∀ (m : List Nat) (i : Nat), (xorWithCycle key i m).length = m.length := by
  intro m
  induction m with
  | nil => intro i; rfl
  | cons x xs ih => intro i; simp [xorWithCycle, ih]

/-- The claim for C7: `xor_strings` with a fixed non-empty key is its own
inverse. -/
theorem xor_strings_self_inverse (message key : List Nat) (hk : key ≠ []) :
    xor_strings (xor_strings message key) key = message := by
  cases key with
  | nil => exact absurd rfl hk
  | cons k ks =>
    simp only [xor_strings, List.isEmpty_cons, if_neg]
    exact xorWithCycle_involutive (k :: ks) message 0

/-- Witness for C7 at a concrete message and key. -/
theorem xor_strings_self_inverse_witness :
    xor_strings (xor_strings [1, 2, 3, 200] [5, 6]) [5, 6] = [1, 2, 3, 200] :=
  xor_strings_self_inverse [1, 2, 3, 200] [5, 6] (by decide)

/-- Counterexample for C9: with a zero-length key `xor_strings` does not
fail; it returns the empty byte string. -/
theorem xor_strings_empty_key_counterexample :
    xor_strings (strBytes "abc") [] = [] := by decide

/-- Amended claim for C9: for byte-sequence inputs `xor_strings` never
raises; a zero-length key yields the empty byte string, and a non-empty
key yields a ciphertext exactly as long as the message. -/
theorem xor_strings_byte_input_behavior (message key : List Nat) :
    (key = [] → xor_strings message key = []) ∧
    (key ≠ [] → (xor_strings message key).length = message.length) := by
  constructor
  · intro hk
    subst hk
    rfl
  · intro hk
    cases key with
    | nil => exact absurd rfl hk
    | cons k ks =>
      simp only [xor_strings, List.isEmpty_cons, if_neg]
      exact xorWithCycle_length (k :: ks) message 0

/-- Witness for C9's amended claim at concrete inputs. -/
theorem xor_strings_byte_input_behavior_witness :
    xor_strings [7, 8] [] = [] ∧ (xor_strings [7, 8] [3]).length = 2 := by
  have h := xor_strings_byte_input_behavior [7, 8] []
  have h2 := xor_strings_byte_input_behavior [7, 8] [3]
  exact ⟨h.1 rfl, h2.2 (by decide)⟩

lemma xorWithCycle_eq_map (key : List Nat) :
    ∀ (m : List Nat) (i : Nat),
      xorWithCycle key i m =
        (List.range m.length).map
          (fun t => m.getD t 0 ^^^ key.getD ((i + t) % key.length) 0) := by
  intro m
  induction m with
  | nil => intro i; rfl
  | cons x xs ih =>
    intro i
    simp only [xorWithCycle, List.length_cons, List.range_succ_eq_map,
      List.map_cons, List.map_map, List.getD_cons_zero, Nat.add_zero, ih]
    congr 1
    apply List.map_congr_left
    intro t _
    simp only [Function.comp_apply, List.getD_cons_succ]
    have ht : i + 1 + t = i + Nat.succ t := by omega
    rw [ht]

/-- The claim for C6: `make_challenge_response` is the hex SHA-1 digest of
the RC4 encryption of the challenge under the derived key, and the derived
key is the byte-wise XOR of the shared key with the 6-byte MAC address
cyclically repeated to the shared key's length. -/
theorem make_challenge_response_structure
    (challenge_message key mac_packed : List Nat) (hmac : mac_packed.length = 6) :
    make_challenge_response challenge_message mac_packed key =
      sha1Hex (rc4 challenge_message (derive_key key mac_packed)) ∧
    derive_key key mac_packed = cyclicXorSpec key mac_packed := by
  refine ⟨rfl, ?_⟩
  have hne : mac_packed ≠ [] := by
    intro h
    rw [h] at hmac
    exact absurd hmac (by decide)
  cases mac_packed with
  | nil => exact absurd rfl hne
  | cons b bs =>
    simp only [derive_key, xor_strings, List.isEmpty_cons, if_neg,
      cyclicXorSpec]
    rw [xorWithCycle_eq_map]
    apply List.map_congr_left
    intro t _
    simp

/-- Witness for C6 at a concrete challenge, shared key and MAC address. -/
theorem make_challenge_response_structure_witness :
    make_challenge_response (strBytes "abc") [92, 207, 127, 51, 170, 255]
        SHARED_KEY_CHALLANGE =
      sha1Hex (rc4 (strBytes "abc")
        (derive_key SHARED_KEY_CHALLANGE [92, 207, 127, 51, 170, 255])) ∧
    derive_key SHARED_KEY_CHALLANGE [92, 207, 127, 51, 170, 255] =
      cyclicXorSpec SHARED_KEY_CHALLANGE [92, 207, 127, 51, 170, 255] :=
  make_challenge_response_structure (strBytes "abc") SHARED_KEY_CHALLANGE
    [92, 207, 127, 51, 170, 255] (by decide)

lemma dropLast_of_length_one {l : List Nat} (h : l.length = 1) :
    l.dropLast = [] := by
  obtain ⟨x, hx⟩ := List.length_eq_one.mp h
  rw [hx]
  rfl

/-- The claim for C1: decoding the example beacon yields IP
`192.168.1.171` and device id `Twinkly_A1234B`, and a payload shorter
than 7 bytes, a status slice other than `OK`, or a final byte other than
zero each raise a decode error. -/
theorem decode_discovery_response_spec :
    decode_discovery_response
        ([171, 1, 168, 192] ++ strBytes "OK" ++ strBytes "Twinkly_A1234B" ++ [0]) =
      Except.ok (strBytes "192.168.1.171", strBytes "Twinkly_A1234B") ∧
    (∀ data : List Nat, data.length < 7 → decodeFails data = true) ∧
    (∀ data : List Nat, (data.drop 4).take 2 ≠ strBytes "OK" →
      decodeFails data = true) ∧
    (∀ data : List Nat, data.getLast? ≠ some 0 → decodeFails data = true) := by
  refine ⟨by rfl, ?_, ?_, ?_⟩
  · intro data hlen
    simp [decodeFails, decode_discovery_response, hlen]
  · intro data hok
    have hbeq : ((data.drop 4).take 2 == strBytes "OK") = false :=
      beq_eq_false_iff_ne.mpr hok
    by_cases hlen : data.length < 7 <;>
      simp [decodeFails, decode_discovery_response, hlen, hbeq]
  · intro data hz
    have hbeq : (data.getLast? == some 0) = false :=
      beq_eq_false_iff_ne.mpr hz
    by_cases hlen : data.length < 7
    · simp [decodeFails, decode_discovery_response, hlen]
    · by_cases hok : ((data.drop 4).take 2 == strBytes "OK") = false <;>
        simp [decodeFails, decode_discovery_response, hlen, hok, hbeq]

/-- Witness for C1's universally quantified failure cases at concrete
payloads. -/
theorem decode_discovery_response_spec_witness :
    decodeFails [1, 2, 3] = true ∧
    decodeFails [171, 1, 168, 192, 75, 79, 65, 66, 0] = true ∧
    decodeFails [171, 1, 168, 192, 79, 75, 65, 66, 7] = true := by
  have h := decode_discovery_response_spec
  exact ⟨h.2.1 [1, 2, 3] (by decide),
    h.2.2.1 [171, 1, 168, 192, 75, 79, 65, 66, 0] (by decide),
    h.2.2.2 [171, 1, 168, 192, 79, 75, 65, 66, 7] (by decide)⟩

/-- The claim for C10: an exactly 7-byte payload with the `OK` marker and
zero terminator decodes successfully with an empty device id and the IP
taken from the first four bytes reversed, and a payload of 7 or more
bytes is never rejected by the length check. -/
theorem decode_discovery_min_length :
    (∀ data : List Nat, data.length = 7 → (data.drop 4).take 2 = strBytes "OK" →
      data.getLast? = some 0 →
      decode_discovery_response data =
        Except.ok (ipv4Exploded (data.take 4).reverse, [])) ∧
    (∀ data : List Nat, 7 ≤ data.length →
      decode_discovery_response data ≠
        Except.error "Data must be longer than 7 bytes.") := by
  constructor
  · intro data hlen hok hz
    have hnlt : ¬ data.length < 7 := by omega
    have hid : (data.drop 6).dropLast = [] := by
      apply dropLast_of_length_one
      simp [List.length_drop, hlen]
    simp [decode_discovery_response, hnlt, hok, hz, hid]
  · intro data hlen hcontra
    have hnlt : ¬ data.length < 7 := by omega
    simp only [decode_discovery_response, if_neg hnlt] at hcontra
    by_cases hok : ((data.drop 4).take 2 == strBytes "OK") = false
    · rw [if_pos hok] at hcontra
      exact absurd (Except.error.inj hcontra) (by decide)
    · rw [if_neg hok] at hcontra
      by_cases hz : (data.getLast? == some 0) = false
      · rw [if_pos hz] at hcontra
        exact absurd (Except.error.inj hcontra) (by decide)
      · rw [if_neg hz] at hcontra
        cases hcontra

/-- Witness for C10 at the minimal 7-byte payload. -/
theorem decode_discovery_min_length_witness :
    decode_discovery_response [171, 1, 168, 192, 79, 75, 0] =
      Except.ok (ipv4Exploded [192, 168, 1, 171], []) ∧
    decode_discovery_response [171, 1, 168, 192, 79, 75, 0] ≠
      Except.error "Data must be longer than 7 bytes." := by
  have h := decode_discovery_min_length
  refine ⟨?_, h.2 [171, 1, 168, 192, 79, 75, 0] (by decide)⟩
  have h1 := h.1 [171, 1, 168, 192, 79, 75, 0] (by decide) (by decide) (by decide)
  rw [show (([171, 1, 168, 192, 79, 75, 0] : List Nat).take 4).reverse =
      [192, 168, 1, 171] from rfl] at h1
  exact h1

/-- The claim for C2: on a 401 the request wrapper invalidates the token,
re-runs the handshake exactly once, and retries the same request exactly
once; the retry's response (401 included) is returned to the caller with
no further retry, so at most two attempts are made. -/
theorem request_bounded_retry (supply statuses : Nat → Nat)
    (s0 : SessionState) (h401 : statuses 0 = 401) :
    (request supply statuses s0).attempts = [statuses 0, statuses 1] ∧
    (request supply statuses s0).state.handshakes =
      (add_authorization supply s0).handshakes + 1 ∧
    (request supply statuses s0).response = statuses 1 ∧
    (statuses 1 = 401 → (request supply statuses s0).response = 401 ∧
      (request supply statuses s0).state.token = none) := by
  by_cases h1 : statuses 1 = 401 <;>
    simp [request, h401, h1, add_authorization, fetch_token_ok]

/-- Witness for C2: a device that always answers 401 yields exactly two
attempts, a second handshake, a 401 response and an invalidated token. -/
theorem request_bounded_retry_witness :
    (request (fun n => n) (fun _ => 401) ⟨none, 0⟩).attempts = [401, 401] ∧
    (request (fun n => n) (fun _ => 401) ⟨none, 0⟩).state.handshakes = 2 ∧
    (request (fun n => n) (fun _ => 401) ⟨none, 0⟩).response = 401 ∧
    (request (fun n => n) (fun _ => 401) ⟨none, 0⟩).state.token = none := by
  have h := request_bounded_retry (fun n => n) (fun _ => 401) ⟨none, 0⟩ rfl
  exact ⟨h.1, h.2.1, (h.2.2.2 rfl).1, (h.2.2.2 rfl).2⟩

/-- The claim for C4: with protocol version 1 and an LED count of at most
255 a single datagram is sent, equal to the `0x01` prefix, the decoded
token bytes, the LED count as one byte and the frame bytes, with no
chunking. -/
theorem rt_frame_v1_datagram (token frame : List Nat) (leds_number : Nat)
    (hleds : leds_number ≤ 255) :
    set_rt_frame_socket token frame 1 leds_number =
      ([1 :: (token ++ [leds_number] ++ frame)], true) := by
  simp [set_rt_frame_socket, structPackB, hleds]

/-- Witness for C4 on the fixed test vector: a 250-LED 3-bytes-per-LED
frame with the recorded token yields the documented datagram whose length
byte is `0xFA` (250). -/
theorem rt_frame_v1_datagram_witness :
    set_rt_frame_socket [48, 34, 6, 4, 93, 106, 38, 88]
        (List.replicate 250 [230, 170, 0]).flatten 1 250 =
      ([1 :: ([48, 34, 6, 4, 93, 106, 38, 88] ++ [250] ++
        (List.replicate 250 [230, 170, 0]).flatten)], true) :=
  rt_frame_v1_datagram [48, 34, 6, 4, 93, 106, 38, 88]
    (List.replicate 250 [230, 170, 0]).flatten 250 (by decide)

lemma chunksOf_flatten (k : Nat) (hk : k ≠ 0) :
    ∀ (n : Nat) (l : List Nat), l.length ≤ n → (chunksOf k l).flatten = l := by
  intro n
  induction n with
  | zero =>
    intro l hl
    have hnil : l = [] := List.eq_nil_of_length_eq_zero (by omega)
    subst hnil
    rw [chunksOf]
    simp
  | succ n ih =>
    intro l hl
    by_cases hnil : l = []
    · subst hnil
      rw [chunksOf]
      simp
    · rw [chunksOf, if_neg hk, dif_neg hnil, List.flatten_cons]
      rw [ih (l.drop k) (by
        have hp : 0 < l.length := List.length_pos.mpr hnil
        simp only [List.length_drop]
        omega)]
      exact List.take_append_drop k l

lemma chunksOf_piece_le (k : Nat) (hk : k ≠ 0) :
    ∀ (n : Nat) (l : List Nat), l.length ≤ n →
      ∀ c ∈ chunksOf k l, c.length ≤ k := by
  intro n
  induction n with
  | zero =>
    intro l hl c hc
    have hnil : l = [] := List.eq_nil_of_length_eq_zero (by omega)
    subst hnil
    rw [chunksOf] at hc
    simp at hc
  | succ n ih =>
    intro l hl c hc
    by_cases hnil : l = []
    · subst hnil
      rw [chunksOf] at hc
      simp at hc
    · rw [chunksOf, if_neg hk, dif_neg hnil] at hc
      rcases List.mem_cons.mp hc with h | h
      · subst h
        simp [List.length_take]
      · exact ih (l.drop k) (by
          have hp : 0 < l.length := List.length_pos.mpr hnil
          simp only [List.length_drop]
          omega) c h

lemma sendLoopV3_complete (token : List Nat) :
    ∀ (n : Nat) (l : List Nat), l.length ≤ n →
      ∀ i, l.length ≤ (256 - i) * V3_PACKET_SIZE →
      sendLoopV3 token i l =
        (v3Datagrams token i (chunksOf V3_PACKET_SIZE l), true) := by
  intro n
  induction n with
  | zero =>
    intro l hl i _
    have hnil : l = [] := List.eq_nil_of_length_eq_zero (by omega)
    subst hnil
    rw [sendLoopV3, chunksOf]
    simp [v3Datagrams]
  | succ n ih =>
    intro l hl i hcap
    by_cases hnil : l = []
    · subst hnil
      rw [sendLoopV3, chunksOf]
      simp [v3Datagrams]
    · have hp : 0 < l.length := List.length_pos.mpr hnil
      have hi : i ≤ 255 := by
        by_contra hgt
        have h0 : 256 - i = 0 := by omega
        rw [h0, Nat.zero_mul] at hcap
        omega
      have hk : ¬ V3_PACKET_SIZE = 0 := by simp [V3_PACKET_SIZE]
      rw [sendLoopV3, dif_neg hnil, if_pos hi,
        ih (l.drop V3_PACKET_SIZE)
          (by simp only [List.length_drop, V3_PACKET_SIZE]; omega)
          (i + 1)
          (by
            simp only [List.length_drop, V3_PACKET_SIZE] at hcap ⊢
            omega)]
      conv_rhs => rw [chunksOf, if_neg hk, dif_neg hnil]
      rfl

lemma sendLoopV3_overflow (token : List Nat) :
    ∀ (n : Nat) (l : List Nat), l.length ≤ n →
      ∀ i, (256 - i) * V3_PACKET_SIZE < l.length →
      (sendLoopV3 token i l).2 = false := by
  intro n
  induction n with
  | zero =>
    intro l hl i hcap
    simp only [V3_PACKET_SIZE] at hcap
    omega
  | succ n ih =>
    intro l hl i hcap
    by_cases hnil : l = []
    · subst hnil
      simp only [List.length_nil, V3_PACKET_SIZE] at hcap
      omega
    · have hp : 0 < l.length := List.length_pos.mpr hnil
      by_cases hi : i ≤ 255
      · rw [sendLoopV3, dif_neg hnil, if_pos hi]
        exact ih (l.drop V3_PACKET_SIZE)
          (by simp only [List.length_drop, V3_PACKET_SIZE]; omega)
          (i + 1)
          (by
            simp only [List.length_drop, V3_PACKET_SIZE] at hcap ⊢
            omega)
      · rw [sendLoopV3, dif_neg hnil, if_neg hi]

/-- Counterexample for C5: a frame of 230401 bytes needs 257 chunks, so the
version 3 send loop raises a `struct.error` when packing chunk index 256
as one byte and the call fails instead of sending a datagram for every
chunk. -/
theorem rt_frame_v3_overflow_counterexample :
    (set_rt_frame_socket [48, 34, 6, 4, 93, 106, 38, 88]
      (List.replicate 230401 0) 3 0).2 = false := by
  have hlen : (List.replicate 230401 (0 : Nat)).length = 230401 :=
    List.length_replicate 230401 0
  have h := sendLoopV3_overflow [48, 34, 6, 4, 93, 106, 38, 88]
    230401 (List.replicate 230401 0) (le_of_eq hlen) 0
    (by
      rw [hlen]
      simp only [V3_PACKET_SIZE]
      omega)
  rw [set_rt_frame_socket, if_neg (by omega), if_neg (by omega)]
  exact h

/-- Amended claim for C5: for every frame of at most 230400 bytes (so that
every chunk index fits in one byte), protocol version 3 splits the frame
into consecutive chunks of at most 900 bytes, sends for each chunk index
`i` in increasing order one datagram `0x03` + token + two zero bytes +
`i` as one byte + the chunk, and the chunks concatenate back to the
frame. -/
theorem rt_frame_v3_chunking (token frame : List Nat) (leds_number : Nat)
    (hlen : frame.length ≤ 256 * V3_PACKET_SIZE) :
    set_rt_frame_socket token frame 3 leds_number =
      (v3Datagrams token 0 (chunksOf V3_PACKET_SIZE frame), true) ∧
    (chunksOf V3_PACKET_SIZE frame).flatten = frame ∧
    (∀ c ∈ chunksOf V3_PACKET_SIZE frame, c.length ≤ V3_PACKET_SIZE) := by
  refine ⟨?_,
    chunksOf_flatten V3_PACKET_SIZE (by simp [V3_PACKET_SIZE]) frame.length
      frame le_rfl,
    chunksOf_piece_le V3_PACKET_SIZE (by simp [V3_PACKET_SIZE]) frame.length
      frame le_rfl⟩
  have h := sendLoopV3_complete token frame.length frame le_rfl 0
    (by simpa using hlen)
  simpa [set_rt_frame_socket] using h

/-- Witness for C5's amended claim on the fixed version 3 test vector: a
750-byte frame forms a single chunk with sequence number zero. -/
theorem rt_frame_v3_chunking_witness :
    set_rt_frame_socket [48, 34, 6, 4, 93, 106, 38, 88]
        (List.replicate 250 [230, 85, 0]).flatten 3 0 =
      (v3Datagrams [48, 34, 6, 4, 93, 106, 38, 88] 0
        (chunksOf V3_PACKET_SIZE (List.replicate 250 [230, 85, 0]).flatten),
        true) ∧
    (chunksOf V3_PACKET_SIZE
      (List.replicate 250 [230, 85, 0]).flatten).flatten =
      (List.replicate 250 [230, 85, 0]).flatten ∧
    (∀ c ∈ chunksOf V3_PACKET_SIZE (List.replicate 250 [230, 85, 0]).flatten,
      c.length ≤ V3_PACKET_SIZE) :=
  rt_frame_v3_chunking [48, 34, 6, 4, 93, 106, 38, 88]
    (List.replicate 250 [230, 85, 0]).flatten 0
    (by
      rw [List.length_flatten, List.map_replicate, List.sum_replicate]
      simp [V3_PACKET_SIZE])

/-- The behavior for C8 at the failing input: after a successful login
(application code 1000) with no hardware address supplied, a verify
response with application code 1100 makes `fetch_token` return normally
with no token installed — the `AuthenticationError` built by
`parse_response_verify` is returned as a value, discarded by
`fetch_token`, and never raised. -/
theorem fetch_token_verify_failure_returns_ok :
    fetch_token
        ⟨strBytes "abc", none, none, none⟩ none
        ⟨1000, some (strBytes "00d8c2"), some (strBytes "token1")⟩
        ⟨1100, none, none⟩ =
      Except.ok
        (⟨strBytes "abc", some (strBytes "00d8c2"),
          some (strBytes "token1"), none⟩, none) := by
  rfl

lemma count_left_map (hw : List Nat) : ∀ (l : List Peer),
    (l.map (fun p => DiscoveryEvent.left p.hw_address)).count
        (DiscoveryEvent.left hw) =
      l.countP (fun p => p.hw_address == hw) := by
  intro l
  induction l with
  | nil => rfl
  | cons q qs ih =>
    simp only [List.map_cons, List.count_cons, List.countP_cons, ih]
    by_cases hq : q.hw_address = hw
    · simp [hq]
    · have h1 : (q.hw_address == hw) = false := beq_eq_false_iff_ne.mpr hq
      have h2 : ((DiscoveryEvent.left q.hw_address ==
          DiscoveryEvent.left hw) : Bool) = false := by
        apply beq_eq_false_iff_ne.mpr
        intro hcontra
        exact hq (by injection hcontra)
      simp [h1, h2]

/-- The claim for C3: a beacon from an untracked hardware address adds the
peer and emits exactly one JOINED event; a beacon from a tracked address
with unchanged device id and IP refreshes the expiry and emits only an
ALIVE event; and a tracked peer whose expiry has passed is removed by the
reaper with exactly one LEFT event. -/
theorem peer_table_events (now : Nat) (peers : PeerTable)
    (hw_address device_id ip_address : List Nat) :
    ((∀ p ∈ peers, p.hw_address ≠ hw_address) →
      process_beacon now peers hw_address device_id ip_address =
        (peers ++ [⟨hw_address, device_id, ip_address, now + PEER_EXPIRY⟩],
          [DiscoveryEvent.joined hw_address device_id ip_address])) ∧
    (∀ p : Peer, peers.find? (fun q => q.hw_address == hw_address) = some p →
      p.device_id = device_id → p.ip_address = ip_address →
      process_beacon now peers hw_address device_id ip_address =
        (peers.map (fun q => if q.hw_address == hw_address then
            (⟨hw_address, device_id, ip_address, now + PEER_EXPIRY⟩ : Peer)
          else q),
          [DiscoveryEvent.alive hw_address device_id ip_address])) ∧
    (∀ p ∈ peers, p.expires_at < now →
      peers.countP (fun q => q.hw_address == p.hw_address) = 1 →
      p ∉ (reap_peers now peers).1 ∧
      (reap_peers now peers).2.count (DiscoveryEvent.left p.hw_address) = 1) := by
  refine ⟨?_, ?_, ?_⟩
  · intro hnew
    have hany : peers.any (fun p => p.hw_address == hw_address) = false := by
      rw [List.any_eq_false]
      intro p hp
      simpa using hnew p hp
    simp [process_beacon, hany, process_new_peer]
  · intro p hfind hdev hip
    have hmem : p ∈ peers := List.mem_of_find?_eq_some hfind
    have hpred := List.find?_some hfind
    have hany : peers.any (fun q => q.hw_address == hw_address) = true :=
      List.any_eq_true.mpr ⟨p, hmem, hpred⟩
    simp only [process_beacon, hany, if_true]
    simp [process_seen_peer, hfind, hdev, hip]
  · intro p hmem hexp hcount
    constructor
    · intro hcontra
      have hkeep := (List.mem_filter.mp hcontra).2
      simp [hexp] at hkeep
    · simp only [reap_peers]
      rw [count_left_map, List.countP_filter]
      have hub : peers.countP
            (fun q => (q.hw_address == p.hw_address) &&
              decide (q.expires_at < now)) ≤
          peers.countP (fun q => q.hw_address == p.hw_address) := by
        apply List.countP_mono_left
        intro q _ hq
        exact (Bool.and_eq_true_iff.mp hq).1
      have hlb : 0 < peers.countP
          (fun q => (q.hw_address == p.hw_address) &&
            decide (q.expires_at < now)) := by
        rw [List.countP_pos_iff]
        exact ⟨p, hmem, by simp [hexp]⟩
      omega

/-- Witness for C3 on a one-entry peer table: a new address joins, a
repeated unchanged beacon only refreshes, and an expired peer leaves
exactly once. -/
theorem peer_table_events_witness :
    process_beacon 4 [⟨[1], [2], [3], 10⟩] [9] [8] [7] =
      ([⟨[1], [2], [3], 10⟩, ⟨[9], [8], [7], 9⟩],
        [DiscoveryEvent.joined [9] [8] [7]]) ∧
    process_beacon 4 [⟨[1], [2], [3], 10⟩] [1] [2] [3] =
      ([⟨[1], [2], [3], 9⟩], [DiscoveryEvent.alive [1] [2] [3]]) ∧
    ((⟨[1], [2], [3], 10⟩ : Peer) ∉ (reap_peers 20 [⟨[1], [2], [3], 10⟩]).1 ∧
      (reap_peers 20 [⟨[1], [2], [3], 10⟩]).2.count
        (DiscoveryEvent.left [1]) = 1) := by
  refine ⟨?_, ?_, ?_⟩
  · have h := (peer_table_events 4 [⟨[1], [2], [3], 10⟩] [9] [8] [7]).1
      (by decide)
    simpa [PEER_EXPIRY] using h
  · have h := (peer_table_events 4 [⟨[1], [2], [3], 10⟩] [1] [2] [3]).2.1
      ⟨[1], [2], [3], 10⟩ rfl rfl rfl
    simpa [PEER_EXPIRY] using h
  · exact (peer_table_events 20 [⟨[1], [2], [3], 10⟩] [0] [0] [0]).2.2
      ⟨[1], [2], [3], 10⟩ (by decide) (by decide) (by decide)

end Xled
